import Mathlib

/-!
Shallow embedding of the firecrawl multi-provider search core:
the provider-selection / failover orchestrator (`selectSearchProvider`, `search`),
the shared retry/backoff loop of the brave-like and duckduckgo-like adapters,
and the duckduckgo response normalization.

Conventions of the embedding:
* JavaScript module-level mutable state (`googleFailCount`, `lastGoogleFailure`)
  becomes an explicit `FailureTracker` value threaded through the functions;
  a function that mutates it returns the updated tracker.
* `process.env.X` reads become fields of a `SearchEnv` record; a JS string is
  truthy iff it is non-empty, and an absent variable is modelled as `""`.
  The orchestrator reads the environment twice: once inside provider selection
  and again inside the rate-limit fallback handler, so `search` takes the two
  snapshots (`envSel`, `envFb`) separately; a run in which the environment does
  not change between the two reads is the special case `envSel = envFb`.
* Adapter calls become an oracle `adapters : Provider → Except SearchError _`;
  a thrown JS error is the `Except.error` case carrying the error message.
* Timestamps (`Date.now()`) are naturals in milliseconds; the two `Date.now()`
  calls inside one `search` invocation are modelled as the single instant `now`.
-/

namespace Firecrawl

/-- Normalized search result `{url, title, description}` (lib/entities). -/
structure SearchResult where
  url : String
  title : String
  description : String
deriving DecidableEq

/-- The provider identities the orchestrator routes between. -/
inductive Provider where
  | serper
  | searchapi
  | searxng
  | brave
  | duckduckgo
  | google
deriving DecidableEq

/-- The environment variables the orchestrator consults; absent = `""`. -/
structure SearchEnv where
  SERPER_API_KEY : String
  SEARCHAPI_API_KEY : String
  SEARXNG_ENDPOINT : String
  BRAVE_SEARCH_API_KEY : String
  DUCKDUCKGO_ENABLED : String
deriving DecidableEq

/-- Truthiness of `process.env.SERPER_API_KEY` (a JS string is truthy iff non-empty). -/
def hasSerper (env : SearchEnv) : Bool := env.SERPER_API_KEY != ""

/-- Truthiness of `process.env.SEARCHAPI_API_KEY`. -/
def hasSearchAPI (env : SearchEnv) : Bool := env.SEARCHAPI_API_KEY != ""

/-- Truthiness of `process.env.SEARXNG_ENDPOINT`. -/
def hasSearxNG (env : SearchEnv) : Bool := env.SEARXNG_ENDPOINT != ""

/-- Truthiness of `process.env.BRAVE_SEARCH_API_KEY`. -/
def hasBraveSearch (env : SearchEnv) : Bool := env.BRAVE_SEARCH_API_KEY != ""

/-- Truthiness of `process.env.DUCKDUCKGO_ENABLED`. -/
def hasDuckDuckGo (env : SearchEnv) : Bool := env.DUCKDUCKGO_ENABLED != ""

/-- The presence flags `selectSearchProvider` derives from the environment,
in source order.  The resolver's decision depends on the environment only
through this tuple. -/
def configFlags (env : SearchEnv) : Bool × Bool × Bool × Bool × Bool :=
  (hasSerper env, hasSearchAPI env, hasSearxNG env, hasBraveSearch env, hasDuckDuckGo env)

/-- The module-level mutable failure-tracking state
(`googleFailCount`, `lastGoogleFailure`). -/
structure FailureTracker where
  googleFailCount : Nat
  lastGoogleFailure : Nat
deriving DecidableEq

/-- The constant `MAX_GOOGLE_FAILURES = 5`. -/
def MAX_GOOGLE_FAILURES : Nat := 5

/-- The constant `GOOGLE_FAILURE_RESET_TIME = 30 * 60 * 1000` (30 minutes in ms). -/
def GOOGLE_FAILURE_RESET_TIME : Nat := 30 * 60 * 1000

/-- First statement of `selectSearchProvider`: reset the failure count when it
is positive and the last failure is older than the cooling period.  JS computes
`Date.now() - lastGoogleFailure` as a possibly negative number, which fails the
strict comparison against the positive reset time exactly when truncated `Nat`
subtraction (yielding `0`) does. -/
def cooldownReset (s : FailureTracker) (now : Nat) : FailureTracker :=
  if 0 < s.googleFailCount ∧ GOOGLE_FAILURE_RESET_TIME < now - s.lastGoogleFailure then
    ⟨0, s.lastGoogleFailure⟩
  else s

/-- The decision part of `selectSearchProvider`, after the cooldown reset:
check the five presence flags; above the failure threshold return the first
configured alternative, resetting the count and falling back to google when
none exists; below the threshold still prefer the first configured
alternative, with google as the keyless default. -/
def selectAfterCooldown (env : SearchEnv) (s : FailureTracker) : Provider × FailureTracker :=
  if MAX_GOOGLE_FAILURES ≤ s.googleFailCount then
    if hasSerper env then (Provider.serper, s)
    else if hasSearchAPI env then (Provider.searchapi, s)
    else if hasSearxNG env then (Provider.searxng, s)
    else if hasBraveSearch env then (Provider.brave, s)
    else if hasDuckDuckGo env then (Provider.duckduckgo, s)
    else (Provider.google, ⟨0, s.lastGoogleFailure⟩)
  else
    if hasSerper env then (Provider.serper, s)
    else if hasSearchAPI env then (Provider.searchapi, s)
    else if hasSearxNG env then (Provider.searxng, s)
    else if hasBraveSearch env then (Provider.brave, s)
    else if hasDuckDuckGo env then (Provider.duckduckgo, s)
    else (Provider.google, s)

/-- The resolver `selectSearchProvider()`: cooldown reset first, then the selection
decision; returns the chosen provider together with the updated tracker. -/
def selectSearchProvider (env : SearchEnv) (s : FailureTracker) (now : Nat) :
    Provider × FailureTracker :=
  selectAfterCooldown env (cooldownReset s now)

/-- A thrown adapter error, carrying `error.message`. -/
structure SearchError where
  message : String
deriving DecidableEq

/-- Prefix test scanned along the list: JS `String.prototype.includes`
on the character lists. -/
def listIncludes (pat : List Char) : List Char → Bool
  | [] => pat.isPrefixOf ([] : List Char)
  | c :: rest => pat.isPrefixOf (c :: rest) || listIncludes pat rest

/-- JS `s.includes(pat)`: some position of `s` starts with `pat`. -/
def jsIncludes (s pat : String) : Bool := listIncludes pat.toList s.toList

/-- The outer `try ... catch` of `search`: a successful adapter call returns
its results; a thrown error is logged and becomes the empty list. -/
def adapterResult (r : Except SearchError (List SearchResult)) : List SearchResult :=
  match r with
  | Except.ok res => res
  | Except.error _ => []

/-- The `search` orchestrator.  Resolves a provider via `selectSearchProvider`
(reading `envSel`), dispatches to its adapter, and catches every thrown error
at the outer `try`, returning `[]`.  In the google branch, a thrown error whose
truthy message contains "Too many requests" first increments the failure count
and stamps the failure time, then re-reads the environment (`envFb`) and
forwards to the first configured alternative in the order brave, duckduckgo,
serper, searchapi, searxng; a failure of that forwarded call, or a google error
without the rate-limit message, propagates to the outer catch. -/
def search (envSel envFb : SearchEnv)
    (adapters : Provider → Except SearchError (List SearchResult))
    (s : FailureTracker) (now : Nat) : List SearchResult × FailureTracker :=
  let sel := selectSearchProvider envSel s now
  match sel.1 with
  | Provider.google =>
    match adapters Provider.google with
    | Except.ok res => (res, sel.2)
    | Except.error e =>
      if (e.message != "") && jsIncludes e.message "Too many requests" then
        let s2 : FailureTracker := ⟨sel.2.googleFailCount + 1, now⟩
        if hasBraveSearch envFb then (adapterResult (adapters Provider.brave), s2)
        else if hasDuckDuckGo envFb then (adapterResult (adapters Provider.duckduckgo), s2)
        else if hasSerper envFb then (adapterResult (adapters Provider.serper), s2)
        else if hasSearchAPI envFb then (adapterResult (adapters Provider.searchapi), s2)
        else if hasSearxNG envFb then (adapterResult (adapters Provider.searxng), s2)
        else ([], s2)
      else ([], sel.2)
  | p => (adapterResult (adapters p), sel.2)

/-- Whether a provider's credential/endpoint/enable setting is present. -/
def isConfigured (env : SearchEnv) : Provider → Bool
  | Provider.serper => hasSerper env
  | Provider.searchapi => hasSearchAPI env
  | Provider.searxng => hasSearxNG env
  | Provider.brave => hasBraveSearch env
  | Provider.duckduckgo => hasDuckDuckGo env
  | Provider.google => false

/-- The fallback order the code's rate-limit handler hard-codes. -/
def codeFallbackOrder : List Provider :=
  [Provider.brave, Provider.duckduckgo, Provider.serper, Provider.searchapi, Provider.searxng]

/-- The single alternative the code's rate-limit handler forwards to: the
first configured provider in `codeFallbackOrder`. -/
def firstConfiguredFallback (env : SearchEnv) : Option Provider :=
  codeFallbackOrder.find? (isConfigured env)

/-- The priority order the resolver uses for alternatives
(serper, searchapi, searxng, brave, duckduckgo). -/
def resolverOrder : List Provider :=
  [Provider.serper, Provider.searchapi, Provider.searxng, Provider.brave, Provider.duckduckgo]

/-- Modelled from the spec: try each provider of the list in turn until one
succeeds; the empty list only when all are exhausted. -/
def walkUntilSuccess (adapters : Provider → Except SearchError (List SearchResult)) :
    List Provider → List SearchResult
  | [] => []
  | p :: rest =>
    match adapters p with
    | Except.ok res => res
    | Except.error _ => walkUntilSuccess adapters rest

/-- Modelled from the spec: the fallback walk the claim describes — the
configured alternatives in the resolver's priority order, each invoked until
one succeeds. -/
def specFallbackWalk (env : SearchEnv)
    (adapters : Provider → Except SearchError (List SearchResult)) : List SearchResult :=
  walkUntilSuccess adapters (resolverOrder.filter (isConfigured env))

/-- The HTTP failure an axios call surfaces: `error.response?.status`
(absent when the failure carried no response) and `error.message`. -/
structure HttpFailure where
  status : Option Nat
  message : String
deriving DecidableEq

/-- The test `error.response?.status === 429 || error.response?.status === 503`. -/
def isRetryableStatus (status : Option Nat) : Bool :=
  status == some 429 || status == some 503

/-- The constant `maxRetries = 3` (shared by the brave-like and duckduckgo-like adapters). -/
def maxRetries : Nat := 3

/-- The constant `baseRetryDelay = 1000` ms. -/
def baseRetryDelay : Nat := 1000

/-- The shared `while (retryCount <= maxRetries)` retry loop of the brave-like
and duckduckgo-like adapters.  `attempt c` is the outcome of the HTTP call made
with `retryCount = c`; on a 429/503 failure with retries remaining the loop
records the delay `baseRetryDelay * 2 ^ retryCount` and retries, otherwise it
throws the wrapped message.  The loop body runs at most `maxRetries + 1` times
(`retryCount` increases by one before every re-entry), so fuel
`maxRetries + 1` is exact; the fuel-exhausted case is the dead `return []`
after the loop. -/
def retryLoop (wrap : String → String)
    (attempt : Nat → Except HttpFailure (List SearchResult)) :
    Nat → Nat → List Nat → Except String (List SearchResult) × List Nat
  | 0, _, delays => (Except.ok [], delays)
  | fuel + 1, retryCount, delays =>
    match attempt retryCount with
    | Except.ok res => (Except.ok res, delays)
    | Except.error e =>
      if isRetryableStatus e.status && decide (retryCount < maxRetries) then
        retryLoop wrap attempt fuel (retryCount + 1)
          (delays ++ [baseRetryDelay * 2 ^ retryCount])
      else (Except.error (wrap e.message), delays)

/-- The wrapped message `Brave Search API error: ...` with the backend message appended. -/
def braveWrapError (msg : String) : String := "Brave Search API error: " ++ msg

/-- The wrapped message `DuckDuckGo search error: ...` with the backend message appended. -/
def ddgWrapError (msg : String) : String := "DuckDuckGo search error: " ++ msg

/-- The brave-like adapter's retry loop, returning the outcome and the list of
backoff delays it slept. -/
def braveSearchRetry (attempt : Nat → Except HttpFailure (List SearchResult)) :
    Except String (List SearchResult) × List Nat :=
  retryLoop braveWrapError attempt (maxRetries + 1) 0 []

/-- The duckduckgo-like adapter's retry loop. -/
def ddgSearchRetry (attempt : Nat → Except HttpFailure (List SearchResult)) :
    Except String (List SearchResult) × List Nat :=
  retryLoop ddgWrapError attempt (maxRetries + 1) 0 []

/-- An entry of the duckduckgo response's `Results` list; the code reads only
`FirstURL` and `Text` (absent = `""`). -/
structure DdgResult where
  FirstURL : String
  Text : String
deriving DecidableEq

/-- An entry of the duckduckgo response's `RelatedTopics` list.  The field `Topics`
is the nested category payload: the code only tests its presence
(`if (topic.Topics) return`), and in JS even an empty nested array is truthy,
so presence is modelled as `Option Unit`. -/
structure DdgTopic where
  Topics : Option Unit
  FirstURL : String
  Text : String
deriving DecidableEq

/-- The fields of the duckduckgo response body the adapter reads.  String
fields are `""` when absent; `Results` / `RelatedTopics` are `none` when the
field is missing (the code guards each with a truthiness test before
iterating, and iterating an empty present array is indistinguishable from
skipping an absent one). -/
structure DdgResponse where
  AbstractURL : String
  AbstractText : String
  AbstractTitle : String
  Heading : String
  Results : Option (List DdgResult)
  RelatedTopics : Option (List DdgTopic)
deriving DecidableEq

/-- JS `String.prototype.split` with a non-empty string separator, on
character lists: scan left to right, cutting at each non-overlapping
occurrence of `sep`.  `acc` holds the current segment reversed; the fuel is
an upper bound on the scanned length so the recursion is structural (the
fuel-exhausted case is unreachable when `fuel ≥` input length). -/
def splitSegAux (sep : List Char) : Nat → List Char → List Char → List (List Char)
  | _, acc, [] => [acc.reverse]
  | 0, acc, rest => [acc.reverse ++ rest]
  | fuel + 1, acc, c :: rest =>
    if sep.isPrefixOf (c :: rest) then
      acc.reverse :: splitSegAux sep fuel [] (rest.drop (sep.length - 1))
    else splitSegAux sep fuel (c :: acc) rest

/-- JS `s.split(sep)` for a non-empty `sep`. -/
def jsSplit (sep s : String) : List String :=
  (splitSegAux sep.toList s.toList.length [] s.toList).map List.asString

/-- The expression `topic.Text.split(' - ')[1] || topic.Text`: the second segment of the
split when it exists and is non-empty (JS `""` is falsy), else the full
text. -/
def ddgTopicDescription (text : String) : String :=
  match (jsSplit " - " text).get? 1 with
  | some seg => if seg != "" then seg else text
  | none => text

/-- The duckduckgo adapter's response normalization (the success branch of its
try block): push the abstract when `AbstractURL` and `AbstractText` are both
truthy; then each `Results` entry while the accumulated length is below
`num_results`; then each `RelatedTopics` entry that is not a category and has
a truthy `FirstURL`, under the same length guard; finally
`results.slice(0, num_results)`. -/
def ddgParse (resp : DdgResponse) (num_results : Nat) : List SearchResult :=
  let results : List SearchResult := []
  let results :=
    if resp.AbstractURL != "" && resp.AbstractText != "" then
      results ++ [⟨resp.AbstractURL,
        if resp.AbstractTitle != "" then resp.AbstractTitle else resp.Heading,
        resp.AbstractText⟩]
    else results
  let results :=
    match resp.Results with
    | some rs =>
      rs.foldl (fun (acc : List SearchResult) (r : DdgResult) =>
        if acc.length < num_results then acc ++ [(⟨r.FirstURL, r.Text, r.Text⟩ : SearchResult)]
        else acc) results
    | none => results
  let results :=
    match resp.RelatedTopics with
    | some ts =>
      ts.foldl (fun (acc : List SearchResult) (t : DdgTopic) =>
        if t.Topics.isSome then acc
        else if acc.length < num_results ∧ t.FirstURL != "" then
          acc ++ [(⟨t.FirstURL, t.Text, ddgTopicDescription t.Text⟩ : SearchResult)]
        else acc) results
    | none => results
  results.take num_results

/-- The abstract/featured-snippet section of the merged output (same guard and
fields as the code's first push). -/
def specAbstract (resp : DdgResponse) : List SearchResult :=
  if resp.AbstractURL != "" && resp.AbstractText != "" then
    [⟨resp.AbstractURL,
      if resp.AbstractTitle != "" then resp.AbstractTitle else resp.Heading,
      resp.AbstractText⟩]
  else []

/-- The `Results`-section entries of the merged output, before truncation. -/
def specResults (resp : DdgResponse) : List SearchResult :=
  (resp.Results.getD []).map (fun r => ⟨r.FirstURL, r.Text, r.Text⟩)

/-- The related-topic entries of the merged output, before truncation:
category topics and topics without a `FirstURL` are excluded. -/
def specTopics (resp : DdgResponse) : List SearchResult :=
  ((resp.RelatedTopics.getD []).filter
      (fun t => !t.Topics.isSome && t.FirstURL != "")).map
    (fun t => ⟨t.FirstURL, t.Text, ddgTopicDescription t.Text⟩)

/-- Modelled from the spec: the claim's reading of the related-topic
description — everything after the first literal " - " separator (the
full text when no separator occurs). -/
def textAfterFirstSep (text : String) : String :=
  match jsSplit " - " text with
  | _ :: seg :: rest => String.intercalate " - " (seg :: rest)
  | _ => text

/-- The response with the related topics lacking a `FirstURL` dropped
(used to state that such topics never contribute to the output). -/
def dropUrllessTopics (resp : DdgResponse) : DdgResponse :=
  { resp with
    RelatedTopics :=
      some ((resp.RelatedTopics.getD []).filter (fun t => t.FirstURL != "")) }

/-- Environment with no alternative configured. -/
def envNone : SearchEnv := ⟨"", "", "", "", ""⟩

/-- Environment with only the serper key configured. -/
def envSerperOnly : SearchEnv := ⟨"sk", "", "", "", ""⟩

/-- Environment with serper and brave configured. -/
def envSerperBrave : SearchEnv := ⟨"sk", "", "", "bk", ""⟩

/-- Environment with only brave configured. -/
def envBraveOnly : SearchEnv := ⟨"", "", "", "bk", ""⟩

/-- Same presence flags as `envSerperOnly`, different key value. -/
def envSerperOther : SearchEnv := ⟨"sk2", "", "", "", ""⟩

/-- A concrete serper result. -/
def resSerper : SearchResult := ⟨"u1", "t1", "d1"⟩

/-- A concrete brave result. -/
def resBrave : SearchResult := ⟨"u2", "t2", "d2"⟩

/-- Adapter oracle for the fallback counterexample: google throws the
rate-limit message, serper would succeed, brave (and the rest) throw. -/
def cexAdapters : Provider → Except SearchError (List SearchResult)
  | Provider.google => Except.error ⟨"Too many requests"⟩
  | Provider.serper => Except.ok [resSerper]
  | _ => Except.error ⟨"backend down"⟩

/-- Adapter oracle where google throws the rate-limit message and brave
succeeds. -/
def braveOkAdapters : Provider → Except SearchError (List SearchResult)
  | Provider.google => Except.error ⟨"Too many requests"⟩
  | Provider.brave => Except.ok [resBrave]
  | _ => Except.ok []

/-- Adapter oracle where google throws a non-rate-limit error and every
alternative would succeed. -/
def plainFailAdapters : Provider → Except SearchError (List SearchResult)
  | Provider.google => Except.error ⟨"boom"⟩
  | _ => Except.ok [resBrave]

/-- Retry-loop attempt oracle: 429 three times, then success. -/
def recoverAttempt : Nat → Except HttpFailure (List SearchResult) :=
  fun i => if i < 3 then Except.error ⟨some 429, "rate limited"⟩ else Except.ok [resBrave]

/-- Duckduckgo response for the counterexamples: one non-category related
topic whose text has two " - " separators. -/
def respTwoSeps : DdgResponse :=
  ⟨"", "", "", "", none, some [⟨none, "tu", "A - B - C"⟩]⟩

/-- Duckduckgo response whose `Results` entry has no `FirstURL`. -/
def respNoUrl : DdgResponse :=
  ⟨"", "", "", "", some [⟨"", "t"⟩], none⟩

/-- Duckduckgo response with an abstract lacking its URL, plus a result and
a topic. -/
def respNoAbstractUrl : DdgResponse :=
  ⟨"", "atext", "ttl", "hd", some [⟨"u1", "t1"⟩], some [⟨none, "u3", "x - y"⟩]⟩

theorem adapterResult_spec (r : Except SearchError (List SearchResult)) :
    adapterResult r = [] ∨ r = Except.ok (adapterResult r) := by
  cases r <;> simp [adapterResult]

/-- C4: whenever at least one alternative provider's credential/endpoint
setting is present, `selectSearchProvider` never returns google, whatever the
failure count: configured alternatives dominate the primary both below and at
or above the failure threshold. -/
theorem C4_alternatives_dominate (env : SearchEnv) (s : FailureTracker) (now : Nat)
    (h : hasSerper env = true ∨ hasSearchAPI env = true ∨ hasSearxNG env = true ∨
      hasBraveSearch env = true ∨ hasDuckDuckGo env = true) :
    (selectSearchProvider env s now).1 ≠ Provider.google := by
  unfold selectSearchProvider selectAfterCooldown
  split_ifs <;> simp_all

theorem C4_alternatives_dominate_witness :
    (selectSearchProvider envSerperOnly ⟨7, 0⟩ 0).1 ≠ Provider.google :=
  C4_alternatives_dominate envSerperOnly ⟨7, 0⟩ 0 (by decide)

/-- C5: with no alternative configured, `selectSearchProvider` returns google
for every failure count, and when the count is at or above
`MAX_GOOGLE_FAILURES` it also resets the count to 0. -/
theorem C5_primary_when_unconfigured (env : SearchEnv) (s : FailureTracker) (now : Nat)
    (h : configFlags env = (false, false, false, false, false)) :
    (selectSearchProvider env s now).1 = Provider.google ∧
    (MAX_GOOGLE_FAILURES ≤ s.googleFailCount →
      (selectSearchProvider env s now).2.googleFailCount = 0) := by
  simp only [configFlags, Prod.mk.injEq] at h
  obtain ⟨h1, h2, h3, h4, h5⟩ := h
  unfold selectSearchProvider selectAfterCooldown cooldownReset
  constructor
  · split_ifs <;> simp_all
  · intro hge
    split_ifs <;> simp_all [MAX_GOOGLE_FAILURES]

theorem C5_primary_when_unconfigured_witness :
    (selectSearchProvider envNone ⟨9, 0⟩ 0).1 = Provider.google ∧
    (selectSearchProvider envNone ⟨9, 0⟩ 0).2.googleFailCount = 0 :=
  ⟨(C5_primary_when_unconfigured envNone ⟨9, 0⟩ 0 (by decide)).1,
    (C5_primary_when_unconfigured envNone ⟨9, 0⟩ 0 (by decide)).2 (by decide)⟩

/-- C6: at the start of `selectSearchProvider`, a positive failure count whose
last failure is more than 30 minutes old is reset to 0 before the selection
decision runs; otherwise this step leaves the tracker unchanged. -/
theorem C6_cooldown_reset (env : SearchEnv) (s : FailureTracker) (now : Nat) :
    ((0 < s.googleFailCount ∧ GOOGLE_FAILURE_RESET_TIME < now - s.lastGoogleFailure) →
      cooldownReset s now = ⟨0, s.lastGoogleFailure⟩ ∧
      selectSearchProvider env s now = selectAfterCooldown env ⟨0, s.lastGoogleFailure⟩) ∧
    (¬(0 < s.googleFailCount ∧ GOOGLE_FAILURE_RESET_TIME < now - s.lastGoogleFailure) →
      cooldownReset s now = s ∧
      selectSearchProvider env s now = selectAfterCooldown env s) := by
  constructor
  · intro h
    have hr : cooldownReset s now = ⟨0, s.lastGoogleFailure⟩ := by
      unfold cooldownReset
      rw [if_pos h]
    exact ⟨hr, by unfold selectSearchProvider; rw [hr]⟩
  · intro h
    have hr : cooldownReset s now = s := by
      unfold cooldownReset
      rw [if_neg h]
    exact ⟨hr, by unfold selectSearchProvider; rw [hr]⟩

theorem C6_cooldown_reset_witness :
    (cooldownReset ⟨3, 0⟩ 1800001 = ⟨0, 0⟩ ∧
      selectSearchProvider envNone ⟨3, 0⟩ 1800001 = selectAfterCooldown envNone ⟨0, 0⟩) ∧
    (cooldownReset ⟨3, 0⟩ 1800000 = ⟨3, 0⟩ ∧
      selectSearchProvider envNone ⟨3, 0⟩ 1800000 = selectAfterCooldown envNone ⟨3, 0⟩) :=
  ⟨(C6_cooldown_reset envNone ⟨3, 0⟩ 1800001).1 (by decide),
    (C6_cooldown_reset envNone ⟨3, 0⟩ 1800000).2 (by decide)⟩

/-- C9: the resolver's outcome is a deterministic function of the credential
presence flags, the tracker snapshot and the current time: two calls agreeing
on those inputs agree on the chosen provider (and on the updated tracker),
whatever the underlying key values. -/
theorem C9_select_deterministic (env1 env2 : SearchEnv) (s1 s2 : FailureTracker)
    (n1 n2 : Nat) (hc : configFlags env1 = configFlags env2) (hs : s1 = s2) (hn : n1 = n2) :
    selectSearchProvider env1 s1 n1 = selectSearchProvider env2 s2 n2 := by
  subst hs hn
  simp only [configFlags, Prod.mk.injEq] at hc
  obtain ⟨h1, h2, h3, h4, h5⟩ := hc
  unfold selectSearchProvider selectAfterCooldown
  rw [h1, h2, h3, h4, h5]

theorem C9_select_deterministic_witness :
    selectSearchProvider envSerperOnly ⟨2, 5⟩ 9 = selectSearchProvider envSerperOther ⟨2, 5⟩ 9 :=
  C9_select_deterministic envSerperOnly envSerperOther ⟨2, 5⟩ ⟨2, 5⟩ 9 9 (by decide) rfl rfl

/-- C1: `search` never raises: every execution yields a plain result list, and
any run whose result is non-empty got it from a successful adapter call — every
failure path ends in the empty list. -/
theorem C1_search_never_raises (envSel envFb : SearchEnv)
    (adapters : Provider → Except SearchError (List SearchResult))
    (s : FailureTracker) (now : Nat) :
    (search envSel envFb adapters s now).1 = [] ∨
    ∃ p, adapters p = Except.ok (search envSel envFb adapters s now).1 := by
  simp only [search]
  cases hp : (selectSearchProvider envSel s now).1 <;> simp only []
  case serper => exact Or.imp id (fun h => ⟨_, h⟩) (adapterResult_spec _)
  case searchapi => exact Or.imp id (fun h => ⟨_, h⟩) (adapterResult_spec _)
  case searxng => exact Or.imp id (fun h => ⟨_, h⟩) (adapterResult_spec _)
  case brave => exact Or.imp id (fun h => ⟨_, h⟩) (adapterResult_spec _)
  case duckduckgo => exact Or.imp id (fun h => ⟨_, h⟩) (adapterResult_spec _)
  case google =>
    cases hg : adapters Provider.google <;> simp only []
    case ok res => exact Or.inr ⟨Provider.google, by rw [hg]⟩
    case error e =>
      split_ifs <;>
        first
          | exact Or.inl rfl
          | exact Or.imp id (fun h => ⟨_, h⟩) (adapterResult_spec _)

/-- C3: when the resolved provider is google and the thrown error's message
does not contain "Too many requests", or when the resolved provider is an
alternative and its adapter throws anything, `search` returns the empty list
with the tracker untouched, and (in the google case) without consulting any
other adapter — the outcome is the same under any oracle agreeing on google. -/
theorem C3_no_fallback_on_other_errors (envSel envFb : SearchEnv)
    (adapters adapters2 : Provider → Except SearchError (List SearchResult))
    (s : FailureTracker) (now : Nat) (e : SearchError) :
    ((selectSearchProvider envSel s now).1 = Provider.google →
      adapters Provider.google = Except.error e →
      jsIncludes e.message "Too many requests" = false →
      (search envSel envFb adapters s now = ([], (selectSearchProvider envSel s now).2) ∧
        (adapters2 Provider.google = adapters Provider.google →
          search envSel envFb adapters2 s now = search envSel envFb adapters s now))) ∧
    ((selectSearchProvider envSel s now).1 ≠ Provider.google →
      adapters (selectSearchProvider envSel s now).1 = Except.error e →
      search envSel envFb adapters s now = ([], (selectSearchProvider envSel s now).2)) := by
  constructor
  · intro hp he hm
    have hcond : ((e.message != "") && jsIncludes e.message "Too many requests") = false := by
      rw [hm, Bool.and_false]
    have h1 : search envSel envFb adapters s now = ([], (selectSearchProvider envSel s now).2) := by
      simp only [search, hp, he, hcond, Bool.false_eq_true, if_false]
    refine ⟨h1, fun h2 => ?_⟩
    rw [h1]
    simp only [search, hp, h2, he, hcond, Bool.false_eq_true, if_false]
  · intro hp he
    cases hq : (selectSearchProvider envSel s now).1 <;>
      first
        | exact absurd hq hp
        | (rw [hq] at he; simp [search, hq, he, adapterResult])

/-- C2 counterexample: the resolved provider is google and its adapter throws
the rate-limit message; serper and brave are both configured and serper's
adapter would succeed, so the claimed walk (serper → searchapi → searxng →
brave → duckduckgo, until one succeeds) yields serper's results — but the code
consults brave first and tries nothing else, so its failure ends the request
with the empty list. -/
theorem C2_fallback_counterexample :
    (selectSearchProvider envNone ⟨0, 0⟩ 0).1 = Provider.google ∧
    cexAdapters Provider.google = Except.error ⟨"Too many requests"⟩ ∧
    specFallbackWalk envSerperBrave cexAdapters = [resSerper] ∧
    (search envNone envSerperBrave cexAdapters ⟨0, 0⟩ 0).1 = [] :=
  ⟨rfl, rfl, rfl, rfl⟩

/-- C2 (amended): when the resolved provider is google and its adapter throws
an error whose message contains "Too many requests", `search` increments the
failure count, stamps the failure time with now, and forwards to exactly the
first configured alternative in the order brave, duckduckgo, serper,
searchapi, searxng (empty list when none is configured, or when that one
forwarded call fails). -/
theorem C2_fallback_amended (envSel envFb : SearchEnv)
    (adapters : Provider → Except SearchError (List SearchResult))
    (s : FailureTracker) (now : Nat) (e : SearchError)
    (hp : (selectSearchProvider envSel s now).1 = Provider.google)
    (he : adapters Provider.google = Except.error e)
    (hm : jsIncludes e.message "Too many requests" = true) :
    search envSel envFb adapters s now =
      ((match firstConfiguredFallback envFb with
        | some p => adapterResult (adapters p)
        | none => []),
      ⟨(selectSearchProvider envSel s now).2.googleFailCount + 1, now⟩) := by
  have hne : (e.message != "") = true := by
    rcases hb : (e.message != "") with _ | _
    · have : e.message = "" := by simpa using hb
      rw [this] at hm
      exact absurd hm (by decide)
    · rfl
  simp only [search, hp, he, hne, hm, Bool.and_self, if_true]
  simp only [firstConfiguredFallback, codeFallbackOrder, List.find?, isConfigured]
  by_cases h1 : hasBraveSearch envFb <;> by_cases h2 : hasDuckDuckGo envFb <;>
    by_cases h3 : hasSerper envFb <;> by_cases h4 : hasSearchAPI envFb <;>
    by_cases h5 : hasSearxNG envFb <;> simp [h1, h2, h3, h4, h5]

theorem C2_fallback_amended_witness :
    search envNone envBraveOnly braveOkAdapters ⟨0, 0⟩ 7 = ([resBrave], ⟨1, 7⟩) :=
  (C2_fallback_amended envNone envBraveOnly braveOkAdapters ⟨0, 0⟩ 7
    ⟨"Too many requests"⟩ rfl rfl (by decide)).trans (by decide)

theorem C3_no_fallback_on_other_errors_witness :
    search envNone envSerperBrave plainFailAdapters ⟨2, 0⟩ 5 = ([], ⟨2, 0⟩) :=
  ((C3_no_fallback_on_other_errors envNone envSerperBrave plainFailAdapters
    plainFailAdapters ⟨2, 0⟩ 5 ⟨"boom"⟩).1 rfl rfl (by decide)).1.trans (by decide)

theorem retryLoop_succ (wrap : String → String)
    (attempt : Nat → Except HttpFailure (List SearchResult))
    (fuel c : Nat) (ds : List Nat) :
    retryLoop wrap attempt (fuel + 1) c ds =
      match attempt c with
      | Except.ok res => (Except.ok res, ds)
      | Except.error e =>
        if isRetryableStatus e.status && decide (c < maxRetries) then
          retryLoop wrap attempt fuel (c + 1) (ds ++ [baseRetryDelay * 2 ^ c])
        else (Except.error (wrap e.message), ds) := rfl

theorem retryLoop_immediate (wrap : String → String)
    (attempt : Nat → Except HttpFailure (List SearchResult)) (e : HttpFailure)
    (h0 : attempt 0 = Except.error e) (hr : isRetryableStatus e.status = false) :
    retryLoop wrap attempt (maxRetries + 1) 0 [] = (Except.error (wrap e.message), []) := by
  rw [retryLoop_succ, h0]
  simp [hr]

theorem retryLoop_exhaust (wrap : String → String)
    (attempt : Nat → Except HttpFailure (List SearchResult)) (e0 e1 e2 e3 : HttpFailure)
    (h0 : attempt 0 = Except.error e0) (h1 : attempt 1 = Except.error e1)
    (h2 : attempt 2 = Except.error e2) (h3 : attempt 3 = Except.error e3)
    (hr0 : isRetryableStatus e0.status = true) (hr1 : isRetryableStatus e1.status = true)
    (hr2 : isRetryableStatus e2.status = true) (hr3 : isRetryableStatus e3.status = true) :
    retryLoop wrap attempt (maxRetries + 1) 0 [] =
      (Except.error (wrap e3.message), [1000, 2000, 4000]) := by
  rw [retryLoop_succ, h0]
  dsimp only
  rw [if_pos (by rw [hr0]; rfl)]
  show retryLoop wrap attempt (2 + 1) 1 [1000] = _
  rw [retryLoop_succ, h1]
  dsimp only
  rw [if_pos (by rw [hr1]; rfl)]
  show retryLoop wrap attempt (1 + 1) 2 [1000, 2000] = _
  rw [retryLoop_succ, h2]
  dsimp only
  rw [if_pos (by rw [hr2]; rfl)]
  show retryLoop wrap attempt (0 + 1) 3 [1000, 2000, 4000] = _
  rw [retryLoop_succ, h3]
  dsimp only
  rw [if_neg (by rw [hr3]; exact (by decide : ¬(true && decide (3 < maxRetries)) = true))]

theorem retryLoop_recover (wrap : String → String)
    (attempt : Nat → Except HttpFailure (List SearchResult)) (e0 e1 e2 : HttpFailure)
    (res : List SearchResult)
    (h0 : attempt 0 = Except.error e0) (h1 : attempt 1 = Except.error e1)
    (h2 : attempt 2 = Except.error e2) (h3 : attempt 3 = Except.ok res)
    (hr0 : isRetryableStatus e0.status = true) (hr1 : isRetryableStatus e1.status = true)
    (hr2 : isRetryableStatus e2.status = true) :
    retryLoop wrap attempt (maxRetries + 1) 0 [] =
      (Except.ok res, [1000, 2000, 4000]) := by
  rw [retryLoop_succ, h0]
  dsimp only
  rw [if_pos (by rw [hr0]; rfl)]
  show retryLoop wrap attempt (2 + 1) 1 [1000] = _
  rw [retryLoop_succ, h1]
  dsimp only
  rw [if_pos (by rw [hr1]; rfl)]
  show retryLoop wrap attempt (1 + 1) 2 [1000, 2000] = _
  rw [retryLoop_succ, h2]
  dsimp only
  rw [if_pos (by rw [hr2]; rfl)]
  show retryLoop wrap attempt (0 + 1) 3 [1000, 2000, 4000] = _
  rw [retryLoop_succ, h3]

/-- C7: under the shared retry policy of the brave-like and duckduckgo-like
adapters, a 429/503 outcome triggers up to 3 extra attempts with delays of
exactly 1000, 2000 and 4000 ms before the 2nd, 3rd and 4th attempts; a 4th
429/503 failure raises the typed error wrapping the backend message; a
non-429/503 error raises immediately with no retries; and 429 three times
followed by a success yields the successful result set. -/
theorem C7_retry_policy (attempt : Nat → Except HttpFailure (List SearchResult))
    (e0 e1 e2 e3 : HttpFailure) (res : List SearchResult) :
    ((attempt 0 = Except.error e0 → attempt 1 = Except.error e1 →
      attempt 2 = Except.error e2 → attempt 3 = Except.error e3 →
      isRetryableStatus e0.status = true → isRetryableStatus e1.status = true →
      isRetryableStatus e2.status = true → isRetryableStatus e3.status = true →
      braveSearchRetry attempt = (Except.error (braveWrapError e3.message), [1000, 2000, 4000]) ∧
      ddgSearchRetry attempt = (Except.error (ddgWrapError e3.message), [1000, 2000, 4000]))) ∧
    ((attempt 0 = Except.error e0 → isRetryableStatus e0.status = false →
      braveSearchRetry attempt = (Except.error (braveWrapError e0.message), []) ∧
      ddgSearchRetry attempt = (Except.error (ddgWrapError e0.message), []))) ∧
    ((attempt 0 = Except.error e0 → attempt 1 = Except.error e1 →
      attempt 2 = Except.error e2 → attempt 3 = Except.ok res →
      isRetryableStatus e0.status = true → isRetryableStatus e1.status = true →
      isRetryableStatus e2.status = true →
      braveSearchRetry attempt = (Except.ok res, [1000, 2000, 4000]) ∧
      ddgSearchRetry attempt = (Except.ok res, [1000, 2000, 4000]))) := by
  refine ⟨fun h0 h1 h2 h3 hr0 hr1 hr2 hr3 => ⟨?_, ?_⟩,
    fun h0 hr => ⟨?_, ?_⟩, fun h0 h1 h2 h3 hr0 hr1 hr2 => ⟨?_, ?_⟩⟩
  · exact retryLoop_exhaust braveWrapError attempt e0 e1 e2 e3 h0 h1 h2 h3 hr0 hr1 hr2 hr3
  · exact retryLoop_exhaust ddgWrapError attempt e0 e1 e2 e3 h0 h1 h2 h3 hr0 hr1 hr2 hr3
  · exact retryLoop_immediate braveWrapError attempt e0 h0 hr
  · exact retryLoop_immediate ddgWrapError attempt e0 h0 hr
  · exact retryLoop_recover braveWrapError attempt e0 e1 e2 res h0 h1 h2 h3 hr0 hr1 hr2
  · exact retryLoop_recover ddgWrapError attempt e0 e1 e2 res h0 h1 h2 h3 hr0 hr1 hr2

theorem C7_retry_policy_witness :
    braveSearchRetry recoverAttempt = (Except.ok [resBrave], [1000, 2000, 4000]) ∧
    ddgSearchRetry recoverAttempt = (Except.ok [resBrave], [1000, 2000, 4000]) :=
  (C7_retry_policy recoverAttempt ⟨some 429, "rate limited"⟩ ⟨some 429, "rate limited"⟩
    ⟨some 429, "rate limited"⟩ ⟨some 429, "rate limited"⟩ [resBrave]).2.2
    rfl rfl rfl rfl (by decide) (by decide) (by decide)

theorem take_append_take {β : Type} (n : Nat) (a b : List β) :
    (a.take n ++ b).take n = (a ++ b).take n := by
  rw [List.take_append_eq_append_take, List.take_append_eq_append_take,
    List.take_take, List.length_take, Nat.min_self]
  congr 2
  omega

theorem ddgResultsFold_full (n : Nat) :
    ∀ (l : List DdgResult) (acc : List SearchResult), n ≤ acc.length →
      l.foldl (fun (acc : List SearchResult) (r : DdgResult) =>
        if acc.length < n then acc ++ [(⟨r.FirstURL, r.Text, r.Text⟩ : SearchResult)]
        else acc) acc = acc := by
  intro l
  induction l with
  | nil => intro acc _; rfl
  | cons r rs ih =>
    intro acc h
    rw [List.foldl_cons, if_neg (by omega)]
    exact ih acc h

theorem ddgResultsFold_eq (n : Nat) :
    ∀ (l : List DdgResult) (acc : List SearchResult), acc.length ≤ n →
      l.foldl (fun (acc : List SearchResult) (r : DdgResult) =>
        if acc.length < n then acc ++ [(⟨r.FirstURL, r.Text, r.Text⟩ : SearchResult)]
        else acc) acc =
      (acc ++ l.map (fun r => (⟨r.FirstURL, r.Text, r.Text⟩ : SearchResult))).take n := by
  intro l
  induction l with
  | nil =>
    intro acc h
    simp [List.take_of_length_le h]
  | cons r rs ih =>
    intro acc h
    rw [List.foldl_cons, List.map_cons]
    by_cases hlt : acc.length < n
    · rw [if_pos hlt, ih _ (by simp; omega)]
      simp [List.append_assoc]
    · have heq : acc.length = n := by omega
      rw [if_neg hlt, ddgResultsFold_full n rs acc (by omega),
        List.take_append_eq_append_take, List.take_of_length_le (by omega), heq,
        Nat.sub_self, List.take_zero, List.append_nil]

theorem ddgTopicsFold_full (n : Nat) :
    ∀ (l : List DdgTopic) (acc : List SearchResult), n ≤ acc.length →
      l.foldl (fun (acc : List SearchResult) (t : DdgTopic) =>
        if t.Topics.isSome then acc
        else if acc.length < n ∧ t.FirstURL != "" then
          acc ++ [(⟨t.FirstURL, t.Text, ddgTopicDescription t.Text⟩ : SearchResult)]
        else acc) acc = acc := by
  intro l
  induction l with
  | nil => intro acc _; rfl
  | cons t ts ih =>
    intro acc h
    rw [List.foldl_cons]
    by_cases ht : t.Topics.isSome
    · rw [if_pos ht]
      exact ih acc h
    · rw [if_neg ht, if_neg (by omega)]
      exact ih acc h

theorem ddgTopicsFold_eq (n : Nat) :
    ∀ (l : List DdgTopic) (acc : List SearchResult), acc.length ≤ n →
      l.foldl (fun (acc : List SearchResult) (t : DdgTopic) =>
        if t.Topics.isSome then acc
        else if acc.length < n ∧ t.FirstURL != "" then
          acc ++ [(⟨t.FirstURL, t.Text, ddgTopicDescription t.Text⟩ : SearchResult)]
        else acc) acc =
      (acc ++ (l.filter (fun t => !t.Topics.isSome && t.FirstURL != "")).map
        (fun t => (⟨t.FirstURL, t.Text, ddgTopicDescription t.Text⟩ : SearchResult))).take n := by
  intro l
  induction l with
  | nil =>
    intro acc h
    simp [List.take_of_length_le h]
  | cons t ts ih =>
    intro acc h
    rw [List.foldl_cons, List.filter_cons]
    by_cases ht : t.Topics.isSome
    · have hfil : (!t.Topics.isSome && t.FirstURL != "") = false := by
        rw [ht, Bool.not_true, Bool.false_and]
      rw [if_pos ht, if_neg (by rw [hfil]; exact Bool.false_ne_true)]
      exact ih acc h
    · have htf : t.Topics.isSome = false := by
        revert ht; cases t.Topics.isSome <;> simp
      by_cases hurl : (t.FirstURL != "") = true
      · have hfil : (!t.Topics.isSome && t.FirstURL != "") = true := by
          rw [htf, Bool.not_false, Bool.true_and, hurl]
        rw [if_neg ht, if_pos hfil]
        by_cases hlt : acc.length < n
        · rw [if_pos ⟨hlt, hurl⟩, List.map_cons, ih _ (by simp; omega)]
          simp [List.append_assoc]
        · have heq : acc.length = n := by omega
          rw [if_neg (fun hc => hlt hc.1),
            ddgTopicsFold_full n ts acc (by omega), List.map_cons,
            List.take_append_eq_append_take, List.take_of_length_le (by omega), heq,
            Nat.sub_self, List.take_zero, List.append_nil]
      · have hub : (t.FirstURL != "") = false := by
          revert hurl; cases (t.FirstURL != "") <;> simp
        have hfil : (!t.Topics.isSome && t.FirstURL != "") = false := by
          rw [hub, Bool.and_false]
        rw [if_neg ht, if_neg (fun hc => hurl hc.2),
          if_neg (by rw [hfil]; exact Bool.false_ne_true)]
        exact ih acc h

/-- The duckduckgo normalization equals the three spec sections concatenated
in order and truncated to `num_results`. -/
theorem ddgParse_eq_take (resp : DdgResponse) (n : Nat) :
    ddgParse resp n = (specAbstract resp ++ specResults resp ++ specTopics resp).take n := by
  have hA : (if resp.AbstractURL != "" && resp.AbstractText != "" then
      ([] : List SearchResult) ++ [⟨resp.AbstractURL,
        if resp.AbstractTitle != "" then resp.AbstractTitle else resp.Heading,
        resp.AbstractText⟩]
    else []) = specAbstract resp := by
    unfold specAbstract
    split <;> rfl
  rcases n with _ | m
  · simp [ddgParse]
  · have hAle : (specAbstract resp).length ≤ m + 1 := by
      unfold specAbstract
      split <;> simp
    simp only [ddgParse, hA]
    cases hR : resp.Results <;> cases hT : resp.RelatedTopics <;>
      simp only [specResults, specTopics, hR, hT, Option.getD_some, Option.getD_none,
        List.map_nil, List.filter_nil, List.append_nil]
    all_goals first
      | rfl
      | rw [ddgTopicsFold_eq (m + 1) _ _ hAle, List.take_take, Nat.min_self]
      | rw [ddgResultsFold_eq (m + 1) _ _ hAle, List.take_take, Nat.min_self]
      | rw [ddgResultsFold_eq (m + 1) _ _ hAle,
          ddgTopicsFold_eq (m + 1) _ _ (by rw [List.length_take]; omega),
          take_append_take, List.take_take, Nat.min_self, List.append_assoc]

/-- C8 counterexample: on a related topic whose text is "A - B - C" the
adapter's description is "B" — the second " - "-separated segment — while the
claim's "text after the first literal separator" reading would give
"B - C". -/
theorem C8_ddg_merge_counterexample :
    ddgParse respTwoSeps 5 = [⟨"tu", "A - B - C", "B"⟩] ∧
    textAfterFirstSep "A - B - C" = "B - C" ∧
    ("B" : String) ≠ "B - C" :=
  ⟨by decide, by decide, by decide⟩

/-- C8 (amended): the adapter's output is the abstract entry (when present),
then the `Results` entries (text doubling as description), then non-category
related topics (category-only topics excluded), the whole concatenation
truncated to at most `num_results` entries; a related topic's description is
the second " - "-separated segment of its text when that segment exists and is
non-empty, and the full text otherwise. -/
theorem C8_ddg_merge_amended (resp : DdgResponse) (n : Nat) :
    ddgParse resp n = (specAbstract resp ++ specResults resp ++ specTopics resp).take n ∧
    (ddgParse resp n).length ≤ n := by
  refine ⟨ddgParse_eq_take resp n, ?_⟩
  rw [ddgParse_eq_take, List.length_take]
  omega

/-- C10 counterexample: a `Results` entry with no `FirstURL` still produces an
output entry, and that entry carries no URL — the claim's conclusion that
every returned result carries a URL fails. -/
theorem C10_url_guard_counterexample :
    ddgParse respNoUrl 5 = [⟨"", "t", "t"⟩] ∧
    ¬(∀ r ∈ ddgParse respNoUrl 5, r.url ≠ "") :=
  ⟨by decide, by decide⟩

/-- C10 (amended): the abstract entry appears only when both `AbstractURL` and
`AbstractText` are present and non-empty; related topics lacking a `FirstURL`
are omitted even when they are not categories (dropping them from the response
changes nothing); but entries from the `Results` section are not URL-guarded,
so an output entry without a URL can only stem from a `Results` entry whose
`FirstURL` is absent. -/
theorem C10_url_guard_amended (resp : DdgResponse) (n : Nat) :
    ((resp.AbstractURL = "" ∨ resp.AbstractText = "") →
      ddgParse resp n = (specResults resp ++ specTopics resp).take n) ∧
    (ddgParse (dropUrllessTopics resp) n = ddgParse resp n) ∧
    (∀ r ∈ ddgParse resp n, r.url ≠ "" ∨
      ∃ q ∈ resp.Results.getD [], q.FirstURL = "" ∧ r = ⟨"", q.Text, q.Text⟩) := by
  refine ⟨?_, ?_, ?_⟩
  · intro habs
    have hA : specAbstract resp = [] := by
      unfold specAbstract
      rcases habs with h | h <;> simp [h]
    rw [ddgParse_eq_take, hA, List.nil_append]
  · rw [ddgParse_eq_take, ddgParse_eq_take]
    have hA : specAbstract (dropUrllessTopics resp) = specAbstract resp := rfl
    have hRes : specResults (dropUrllessTopics resp) = specResults resp := rfl
    have hTop : specTopics (dropUrllessTopics resp) = specTopics resp := by
      unfold specTopics dropUrllessTopics
      rw [Option.getD_some, List.filter_filter]
      congr 1
      apply List.filter_congr
      intro t _
      cases ht : t.Topics.isSome <;> cases hu : (t.FirstURL != "") <;> simp [ht, hu]
    rw [hA, hRes, hTop]
  · intro r hr
    rw [ddgParse_eq_take] at hr
    have hr' := List.mem_of_mem_take hr
    rcases List.mem_append.mp hr' with hl | htop
    · rcases List.mem_append.mp hl with habs | hres
      · left
        unfold specAbstract at habs
        by_cases hc : (resp.AbstractURL != "" && resp.AbstractText != "") = true
        · rw [if_pos hc] at habs
          rcases List.mem_singleton.mp habs with rfl
          rw [Bool.and_eq_true] at hc
          simpa using hc.1
        · rw [if_neg hc] at habs
          exact absurd habs (List.not_mem_nil r)
      · unfold specResults at hres
        rcases List.mem_map.mp hres with ⟨q, hq, rfl⟩
        by_cases hu : q.FirstURL = ""
        · right
          exact ⟨q, hq, hu, by rw [hu]⟩
        · left
          exact hu
    · left
      unfold specTopics at htop
      rcases List.mem_map.mp htop with ⟨t, ht, rfl⟩
      have hf := List.of_mem_filter ht
      rw [Bool.and_eq_true] at hf
      simpa using hf.2

theorem C10_url_guard_amended_witness :
    ddgParse respNoAbstractUrl 5 =
      (specResults respNoAbstractUrl ++ specTopics respNoAbstractUrl).take 5 ∧
    ddgParse respNoAbstractUrl 5 = [⟨"u1", "t1", "t1"⟩, ⟨"u3", "x - y", "y"⟩] :=
  ⟨(C10_url_guard_amended respNoAbstractUrl 5).1 (Or.inl rfl), by decide⟩

end Firecrawl
